import Mathlib

/-!
Verification of the graceful-shutdown coordinator (`ShutdownService`) from
`src/core/lifecycle/shutdown.rs`, as a shallow embedding.

Modelling choices:

* A registry entry `Arc<dyn Service>` is identified by the id (a `Nat`) of the
  allocation it points at.  Registering the same handle twice puts the same id
  in the `services` list twice, exactly as cloning an `Arc` would.
* Reference counting: `graceful_shutdown` drains the `services` vector and
  downgrades every drained `Arc`, so when the leak scan runs, all of the
  coordinator's own strong references are gone and the strong count a weak
  handle to allocation `i` observes is the number of strong references held
  outside the coordinator, modelled by `Env.externalStrong i`.
* Everything the outside world does during one call of `graceful_shutdown`
  (each service's `name()`, whether its shutdown hook returns a receiver,
  whether each actor mailbox accepts `try_send`, the value each oneshot
  channel eventually carries, and which side of the `tokio::select!` race
  finishes first) is packaged into an `Env` parameter of the run.
* Logging calls, the `System::current().stop()` call, the ownership release
  and the leak scan are modelled as an ordered `Event` trace.  The relative
  order in which the per-receiver logging wrappers fire is nondeterministic in
  the source (they are awaited concurrently by `join_all`), so the trace lists
  those wrapper logs in registration order and the theorems below use only
  membership facts about them, never their order.
* A failed `try_send` returns the message inside the error and the binding
  `let _ = ...` drops it, which drops the `Sender` half; the corresponding
  `Receiver` is therefore already closed when the wait phase starts, so its
  logging wrapper is guaranteed to resolve (with a receive error) even when
  the 3-second deadline wins the race.  This is the `forcedDropped` flag.
-/

namespace Shutdown

/-- Value observed on the consumer half of a `oneshot::channel::<Result<()>>`:
`Ok(Ok(()))`, `Ok(Err(e))`, or `Err(RecvError)` when the producer half was
dropped without sending. -/
inductive FinishOutcome
  | ok
  | err
  | dropped
  deriving DecidableEq

/-- A send-only endpoint `Recipient<GracefulShutdownMsg>`; `try_send` succeeds
iff the recipient is reachable. -/
structure Recipient where
  reachable : Bool
  deriving DecidableEq

/-- `ActorInfo { name, actor }`. -/
structure ActorInfo where
  name : String
  actor : Recipient
  deriving DecidableEq

/-- A registry entry `Arc<dyn Service>`: the id of the allocation it points at. -/
abbrev ServiceRef := Nat

/-- The registry `State { services, actors }` guarded by the mutex inside
`ShutdownService`. -/
structure State where
  services : List ServiceRef
  actors : List ActorInfo
  deriving DecidableEq

/-- `ShutdownService::default()`: the freshly constructed, empty registry. -/
def State.default : State := { services := [], actors := [] }

/-- Behaviour of the registered components and of the async runtime during one
call of `graceful_shutdown`. -/
structure Env where
  /-- `Service::name()` of allocation `i` (stable per the capability contract). -/
  serviceName : ServiceRef → String
  /-- Whether `Service::graceful_shutdown` of allocation `i` returns
  `Some(receiver)` (`true`) or `None` (`false`). -/
  hookReturnsReceiver : ServiceRef → Bool
  /-- Strong references to allocation `i` held outside the coordinator's
  registry at leak-scan time (self-cycles, clones kept by tasks, ...). -/
  externalStrong : ServiceRef → Nat
  /-- Outcome the producer side eventually delivers on the finish receiver at
  index `k` of `finish_receivers` (ignored when that producer was already
  dropped by a failed `try_send`). -/
  outcome : Nat → FinishOutcome
  /-- Whether `join_all(finishing_services_futures)` wins the `tokio::select!`
  race against `sleep(TIMEOUT)`. -/
  aggregateWins : Bool
  /-- When the deadline wins: whether the receiver at index `k` had resolved
  (and logged) before the deadline fired. -/
  resolvedBeforeDeadline : Nat → Bool

/-- `TIMEOUT` of the `tokio::select!` race: `Duration::from_secs(3)`. -/
def TIMEOUT_SECS : Nat := 3

/-- Observable actions of one `graceful_shutdown` run, in program order. -/
inductive Event
  /-- `actor_info.actor.try_send(GracefulShutdownMsg { .. })`, with whether the
  message was delivered. -/
  | trySend (actorName : String) (delivered : Bool)
  /-- `finish_receivers.push((label, receiver))`. -/
  | recordReceiver (label : String)
  /-- The trace log for a service whose hook returned `None`. -/
  | hookNone (serviceName : String)
  /-- `error!("Can't receive message for finishing graceful shutdown in {} ...")`:
  the producer half was dropped without sending. -/
  | waitLogRecvError (label : String)
  /-- `error!("{} finished on graceful shutdown with error: ...")`. -/
  | waitLogErr (label : String)
  /-- `trace!("Graceful shutdown for {} completed successfully")`. -/
  | waitLogOk (label : String)
  /-- End of the `tokio::select!`: `timedOut = true` logs the
  `error!("Not all services finished after timeout ...")` line, otherwise the
  all-finished trace line. -/
  | waitEnded (timedOut : Bool)
  /-- `System::current().stop()`. -/
  | runtimeStop
  /-- The coordinator drains `services` and downgrades every drained `Arc`. -/
  | releaseRefs
  /-- The scan of the weak handles, with the resulting leak list. -/
  | leakScan (leaked : List String)
  deriving DecidableEq

/-- One entry of `finish_receivers`: its label and whether its producer half
was already dropped when it was recorded (a failed `try_send` drops the
returned message together with the `Sender` inside it). -/
structure PendingFinish where
  label : String
  forcedDropped : Bool
  deriving DecidableEq

/-- The `finish_receivers` entry created for one registered actor:
labelled `"actor {name}"`; its producer is dropped iff `try_send` failed. -/
def actor_pending (a : ActorInfo) : PendingFinish :=
  { label := "actor " ++ a.name, forcedDropped := !a.actor.reachable }

/-- Events of the actor fan-out loop, in loop order: one `try_send` attempt
and one recorded receiver per registered actor. -/
def actor_fanout_events : List ActorInfo → List Event
  | [] => []
  | a :: rest =>
      Event.trySend a.name a.actor.reachable
        :: Event.recordReceiver ("actor " ++ a.name)
        :: actor_fanout_events rest

/-- The `finish_receivers` entry created for one registered service: `Some`
labelled `"service {name}"` when its hook returns a receiver, `none` when the
hook returns `None`. -/
def service_pending (env : Env) (s : ServiceRef) : Option PendingFinish :=
  if env.hookReturnsReceiver s then
    some { label := "service " ++ env.serviceName s, forcedDropped := false }
  else none

/-- Events of the service fan-out loop, in loop order. -/
def service_fanout_events (env : Env) : List ServiceRef → List Event
  | [] => []
  | s :: rest =>
      (if env.hookReturnsReceiver s then
        [Event.recordReceiver ("service " ++ env.serviceName s)]
      else
        [Event.hookNone (env.serviceName s)])
        ++ service_fanout_events env rest

/-- The full `finish_receivers` vector: actor receivers in registration order,
then the service receivers of the hooks that returned one. -/
def finish_receivers (env : Env) (st : State) : List PendingFinish :=
  st.actors.map actor_pending ++ st.services.filterMap (service_pending env)

/-- The log line the wrapping closure around one receiver emits for a given
outcome. -/
def wait_log_event (label : String) : FinishOutcome → Event
  | .ok => .waitLogOk label
  | .err => .waitLogErr label
  | .dropped => .waitLogRecvError label

/-- Whether the wrapper around receiver `k` runs (and logs) before the wait
phase ends: always when `join_all` wins the race; when the deadline wins, the
receivers already closed at wait start (failed sends) are ready on the first
poll and still log, the rest according to the race. -/
def resolves (env : Env) (k : Nat) (p : PendingFinish) : Bool :=
  env.aggregateWins || p.forcedDropped || env.resolvedBeforeDeadline k

/-- Outcome receiver `k` yields: a receive error when its producer was dropped
by a failed `try_send`, otherwise whatever the component delivers. -/
def receiver_outcome (env : Env) (k : Nat) (p : PendingFinish) : FinishOutcome :=
  if p.forcedDropped then .dropped else env.outcome k

/-- Wrapper logs emitted during the wait phase for the receivers from index
`k` on (listed in registration order; see the header note on ordering). -/
def wait_events_from (env : Env) : Nat → List PendingFinish → List Event
  | _, [] => []
  | k, p :: ps =>
      (if resolves env k p then
        [wait_log_event p.label (receiver_outcome env k p)]
      else [])
        ++ wait_events_from env (k + 1) ps

/-- The leak scan over the drained, downgraded registry entries: keeps, in
order, the name of each drained entry whose allocation still has a strong
count above zero (`weak_service.strong_count() > 0`, then `upgrade()` yields
the service and its name). -/
def not_dropped_services (env : Env) (services : List ServiceRef) : List String :=
  services.filterMap fun s =>
    if 0 < env.externalStrong s then some (env.serviceName s) else none

/-- `ShutdownService::register_service`: appends one handle to `services`. -/
def register_service (st : State) (service : ServiceRef) : State :=
  { st with services := st.services ++ [service] }

/-- `ShutdownService::register_services`: calls `register_service` on each
element of the batch in order. -/
def register_services (st : State) (services : List ServiceRef) : State :=
  services.foldl register_service st

/-- `ShutdownService::register_actor`: appends one `ActorInfo` to `actors`. -/
def register_actor (st : State) (name : String) (actor : Recipient) : State :=
  { st with actors := st.actors ++ [{ name := name, actor := actor }] }

/-- Result of one `graceful_shutdown` run: the returned leak list, the
registry afterwards, the labels of the recorded receivers, and the event
trace. -/
structure ShutdownResult where
  leaked : List String
  finalState : State
  waitSet : List String
  events : List Event
  deriving DecidableEq

/-- `ShutdownService::graceful_shutdown`: fan-out to actors then services,
timeout-bounded aggregate wait, runtime stop, drain-and-downgrade of the
service registry, leak scan, and return of the leaked names. -/
def graceful_shutdown (env : Env) (st : State) : ShutdownResult :=
  let pending := finish_receivers env st
  let leaked := not_dropped_services env st.services
  { leaked := leaked
  , finalState := { services := [], actors := st.actors }
  , waitSet := pending.map PendingFinish.label
  , events :=
      actor_fanout_events st.actors
        ++ service_fanout_events env st.services
        ++ wait_events_from env 0 pending
        ++ [Event.waitEnded (!env.aggregateWins), Event.runtimeStop,
            Event.releaseRefs, Event.leakScan leaked] }

/-! Concrete environments used by the witnesses, mirroring the two unit tests
(`SomeTestService` with no external holders, `RefTestService` with a strong
self-reference) and the duplicate-registration scenario. -/

/-- Environment of the `success` test: hook returns `None`, nothing outside
the coordinator holds the service. -/
def envA : Env :=
  { serviceName := fun _ => "SomeTestService"
  , hookReturnsReceiver := fun _ => false
  , externalStrong := fun _ => 0
  , outcome := fun _ => .ok
  , aggregateWins := true
  , resolvedBeforeDeadline := fun _ => false }

/-- Environment of the `failed` test: the service keeps one strong reference
to itself. -/
def envB : Env :=
  { envA with serviceName := fun _ => "RefTestService", externalStrong := fun _ => 1 }

/-- A service named `"S"` with one live outside strong reference. -/
def envS : Env :=
  { envA with serviceName := fun _ => "S", externalStrong := fun _ => 1 }

/-- `envS` with every channel outcome replaced by a dropped producer and the
deadline winning the race. -/
def envS_dropped : Env :=
  { envS with outcome := fun _ => .dropped, aggregateWins := false }

/-- An actor whose mailbox rejects `try_send`. -/
def actD : ActorInfo := { name := "A", actor := { reachable := false } }

/-- Registry with one unreachable actor and one still-referenced service. -/
def stD : State := { services := [7], actors := [actD] }

/-! Helper lemmas. -/

/-- When no drained entry's allocation has outside strong references, the
leak scan is empty. -/
theorem not_dropped_nil (env : Env) (l : List ServiceRef)
    (h : ∀ s ∈ l, env.externalStrong s = 0) :
    not_dropped_services env l = [] := by
  induction l with
  | nil => rfl
  | cons s rest ih =>
      have hs : env.externalStrong s = 0 := h s (List.mem_cons_self s rest)
      have hr : ∀ x ∈ rest, env.externalStrong x = 0 := fun x hx =>
        h x (List.mem_cons_of_mem s hx)
      have hrest : not_dropped_services env rest = [] := ih hr
      simp [not_dropped_services, hs] at hrest ⊢
      exact hrest

/-- A receiver whose producer was already dropped always logs a receive error
during the wait phase, wherever it sits in `finish_receivers`. -/
theorem wait_events_mem_dropped (env : Env) (p : PendingFinish)
    (hp : p.forcedDropped = true) :
    ∀ (k : Nat) (ps : List PendingFinish), p ∈ ps →
      Event.waitLogRecvError p.label ∈ wait_events_from env k ps := by
  intro k ps
  induction ps generalizing k with
  | nil => intro h; simp at h
  | cons q rest ih =>
      intro hmem
      rcases List.mem_cons.mp hmem with h | h
      · subst h
        have hres : resolves env k p = true := by simp [resolves, hp]
        have hout : receiver_outcome env k p = .dropped := by
          simp [receiver_outcome, hp]
        simp [wait_events_from, hres, hout, wait_log_event]
      · exact List.mem_append_right _ (ih (k + 1) h)

/-- No runtime stop happens inside the actor fan-out loop. -/
theorem runtimeStop_not_in_actor_fanout (l : List ActorInfo) :
    Event.runtimeStop ∉ actor_fanout_events l := by
  induction l with
  | nil => simp [actor_fanout_events]
  | cons a rest ih => simp [actor_fanout_events, ih]

/-- No runtime stop happens inside the service fan-out loop. -/
theorem runtimeStop_not_in_service_fanout (env : Env) (l : List ServiceRef) :
    Event.runtimeStop ∉ service_fanout_events env l := by
  induction l with
  | nil => simp [service_fanout_events]
  | cons s rest ih =>
      cases hb : env.hookReturnsReceiver s <;>
        simp [service_fanout_events, hb, ih]

/-- No runtime stop happens inside the wait phase. -/
theorem runtimeStop_not_in_wait (env : Env) :
    ∀ (k : Nat) (ps : List PendingFinish),
      Event.runtimeStop ∉ wait_events_from env k ps := by
  intro k ps
  induction ps generalizing k with
  | nil => simp [wait_events_from]
  | cons p rest ih =>
      cases hr : resolves env k p
      · simpa [wait_events_from, hr] using ih (k + 1)
      · have hne : Event.runtimeStop
            ≠ wait_log_event p.label (receiver_outcome env k p) := by
          cases receiver_outcome env k p <;> simp [wait_log_event]
        simp [wait_events_from, hr, hne, ih (k + 1)]

/-- `register_services` appends the batch to `services` and leaves `actors`
alone. -/
theorem register_services_spec (st : State) (batch : List ServiceRef) :
    (register_services st batch).services = st.services ++ batch
    ∧ (register_services st batch).actors = st.actors := by
  induction batch generalizing st with
  | nil => exact ⟨(List.append_nil _).symm, rfl⟩
  | cons b rest ih =>
      refine ⟨?_, ?_⟩
      · calc (register_services st (b :: rest)).services
            = (register_service st b).services ++ rest :=
              (ih (register_service st b)).1
          _ = (st.services ++ [b]) ++ rest := rfl
          _ = st.services ++ b :: rest := by simp
      · calc (register_services st (b :: rest)).actors
            = (register_service st b).actors := (ih (register_service st b)).2
          _ = st.actors := rfl

/-! Claims. -/

/-- C1: for every registry in which each registered service's shutdown hook
returns no receiver and no strong reference outside the coordinator remains
at scan time, `graceful_shutdown` returns the empty leak list. -/
theorem graceful_shutdown_clean (env : Env) (st : State)
    (hhook : ∀ s ∈ st.services, env.hookReturnsReceiver s = false)
    (hext : ∀ s ∈ st.services, env.externalStrong s = 0) :
    (graceful_shutdown env st).leaked = [] :=
  not_dropped_nil env st.services hext

theorem graceful_shutdown_clean_witness :
    ((∀ s ∈ ([0] : List ServiceRef), envA.hookReturnsReceiver s = false)
      ∧ (∀ s ∈ ([0] : List ServiceRef), envA.externalStrong s = 0))
    ∧ (graceful_shutdown envA { services := [0], actors := [] }).leaked = [] :=
  ⟨⟨by decide, by decide⟩,
    graceful_shutdown_clean envA { services := [0], actors := [] }
      (by decide) (by decide)⟩

/-- C2: a single registered service that keeps a strong reference to itself
(one outside strong reference at scan time) makes `graceful_shutdown` return
a leak list containing exactly that service's name and nothing else. -/
theorem graceful_shutdown_self_cycle (env : Env) (i : ServiceRef)
    (acts : List ActorInfo) (hext : env.externalStrong i = 1) :
    (graceful_shutdown env { services := [i], actors := acts }).leaked
      = [env.serviceName i] := by
  show not_dropped_services env [i] = [env.serviceName i]
  simp [not_dropped_services, hext]

theorem graceful_shutdown_self_cycle_witness :
    envB.externalStrong 0 = 1
    ∧ (graceful_shutdown envB { services := [0], actors := [] }).leaked
        = [envB.serviceName 0] :=
  ⟨by decide, graceful_shutdown_self_cycle envB 0 [] (by decide)⟩

/-- C3 as stated is false on the code: registering the same handle twice puts
two entries in `services`, the drain downgrades each entry separately, and the
scan reports the name once per weak handle; with one outside strong reference
the name `"S"` appears twice in the leak list, not at most once. -/
theorem duplicate_registration_counterexample :
    ¬ ((graceful_shutdown envS { services := [0, 0], actors := [] }).leaked.count
        "S" ≤ 1) := by
  decide

/-- C3 amended: leak detection is per drained registration entry, each entry
judged by the strong count of its underlying allocation — registering the same
handle twice while one outside strong reference stays live makes the name
appear exactly once per registration, hence twice. -/
theorem duplicate_registration_leak (env : Env) (i : ServiceRef)
    (acts : List ActorInfo) (hext : 0 < env.externalStrong i) :
    (graceful_shutdown env { services := [i, i], actors := acts }).leaked
      = [env.serviceName i, env.serviceName i] := by
  show not_dropped_services env [i, i] = _
  simp [not_dropped_services, hext]

theorem duplicate_registration_leak_witness :
    0 < envS.externalStrong 0
    ∧ (graceful_shutdown envS { services := [0, 0], actors := [] }).leaked
        = [envS.serviceName 0, envS.serviceName 0] :=
  ⟨by decide, duplicate_registration_leak envS 0 [] (by decide)⟩

/-- C4: an actor whose `try_send` fails still gets its consumer half recorded
in the wait set under `"actor {name}"`; the failure surfaces as a logged
receive error (the dropped producer resolves the receiver immediately), and it
is never escalated: the returned leak list equals the one of the run in which
every actor mailbox accepts the send. -/
theorem failed_send_not_escalated (env : Env) (st : State) (a : ActorInfo)
    (hmem : a ∈ st.actors) (hfail : a.actor.reachable = false) :
    ("actor " ++ a.name) ∈ (graceful_shutdown env st).waitSet
    ∧ Event.waitLogRecvError ("actor " ++ a.name)
        ∈ (graceful_shutdown env st).events
    ∧ (graceful_shutdown env st).leaked
        = (graceful_shutdown env
            { st with actors :=
                st.actors.map fun b => { b with actor := { reachable := true } } }).leaked := by
  have hpend : actor_pending a ∈ finish_receivers env st :=
    List.mem_append_left _ (List.mem_map_of_mem actor_pending hmem)
  have hdrop : (actor_pending a).forcedDropped = true := by
    simp [actor_pending, hfail]
  have hlabel : (actor_pending a).label = "actor " ++ a.name := rfl
  refine ⟨?_, ?_, rfl⟩
  · show ("actor " ++ a.name) ∈ (finish_receivers env st).map PendingFinish.label
    exact hlabel ▸ List.mem_map_of_mem PendingFinish.label hpend
  · show Event.waitLogRecvError ("actor " ++ a.name)
        ∈ actor_fanout_events st.actors
          ++ service_fanout_events env st.services
          ++ wait_events_from env 0 (finish_receivers env st)
          ++ [Event.waitEnded (!env.aggregateWins), Event.runtimeStop,
              Event.releaseRefs,
              Event.leakScan (not_dropped_services env st.services)]
    have hmemw : Event.waitLogRecvError ("actor " ++ a.name)
        ∈ wait_events_from env 0 (finish_receivers env st) :=
      hlabel ▸ wait_events_mem_dropped env (actor_pending a) hdrop 0
        (finish_receivers env st) hpend
    simp only [List.append_assoc, List.mem_append]
    exact Or.inr (Or.inr (Or.inl hmemw))

theorem failed_send_not_escalated_witness :
    (actD ∈ stD.actors ∧ actD.actor.reachable = false)
    ∧ (("actor " ++ actD.name) ∈ (graceful_shutdown envS stD).waitSet
      ∧ Event.waitLogRecvError ("actor " ++ actD.name)
          ∈ (graceful_shutdown envS stD).events
      ∧ (graceful_shutdown envS stD).leaked
          = (graceful_shutdown envS
              { stD with actors :=
                  stD.actors.map fun b => { b with actor := { reachable := true } } }).leaked) :=
  ⟨⟨by decide, by decide⟩,
    failed_send_not_escalated envS stD actD (by decide) (by decide)⟩

/-- C5: `graceful_shutdown` never fails: for every registry and environment it
reaches the end of the wait phase, performs the runtime stop, the ownership
release and the leak scan, and returns exactly the leak-scan names; the
channel outcomes and the aggregate-versus-deadline race affect only the log
trace, never the returned list or the final registry. -/
theorem graceful_shutdown_never_fails (env : Env) (st : State) :
    (graceful_shutdown env st).leaked = not_dropped_services env st.services
    ∧ Event.waitEnded (!env.aggregateWins) ∈ (graceful_shutdown env st).events
    ∧ Event.runtimeStop ∈ (graceful_shutdown env st).events
    ∧ Event.releaseRefs ∈ (graceful_shutdown env st).events
    ∧ Event.leakScan (not_dropped_services env st.services)
        ∈ (graceful_shutdown env st).events
    ∧ (∀ (out : Nat → FinishOutcome) (agg : Bool) (res : Nat → Bool),
        (graceful_shutdown
            { env with outcome := out, aggregateWins := agg,
                       resolvedBeforeDeadline := res } st).leaked
          = (graceful_shutdown env st).leaked
        ∧ (graceful_shutdown
            { env with outcome := out, aggregateWins := agg,
                       resolvedBeforeDeadline := res } st).finalState
          = (graceful_shutdown env st).finalState) := by
  refine ⟨rfl, ?_, ?_, ?_, ?_, fun out agg res => ⟨rfl, rfl⟩⟩ <;>
    · show _ ∈ actor_fanout_events st.actors
          ++ service_fanout_events env st.services
          ++ wait_events_from env 0 (finish_receivers env st)
          ++ [Event.waitEnded (!env.aggregateWins), Event.runtimeStop,
              Event.releaseRefs,
              Event.leakScan (not_dropped_services env st.services)]
      simp

/-- C6: after `graceful_shutdown`, the registry's `services` sequence is
drained while its `actors` sequence is exactly the one the fan-out snapshot
saw. -/
theorem registry_drained (env : Env) (st : State) :
    (graceful_shutdown env st).finalState.services = []
    ∧ (graceful_shutdown env st).finalState.actors = st.actors :=
  ⟨rfl, rfl⟩

/-- C7: each registration appends exactly one element to its own sequence and
leaves the other sequence unchanged, and `register_services` is the in-order
fold of `register_service` over the batch, appending the whole batch. -/
theorem register_append (st : State) (h : ServiceRef) (n : String)
    (c : Recipient) (batch : List ServiceRef) :
    (register_service st h).services = st.services ++ [h]
    ∧ (register_service st h).actors = st.actors
    ∧ (register_actor st n c).actors = st.actors ++ [{ name := n, actor := c }]
    ∧ (register_actor st n c).services = st.services
    ∧ register_services st batch = batch.foldl register_service st
    ∧ (register_services st batch).services = st.services ++ batch
    ∧ (register_services st batch).actors = st.actors :=
  ⟨rfl, rfl, rfl, rfl, rfl,
    (register_services_spec st batch).1, (register_services_spec st batch).2⟩

/-- C8: in every run the runtime-stop action appears exactly once in the
trace (it occurs once, nowhere else), strictly after the end of the wait
phase and strictly before the release of the coordinator's service
references. -/
theorem runtime_stop_exactly_once (env : Env) (st : State) :
    ∃ p q, (graceful_shutdown env st).events = p ++ Event.runtimeStop :: q
      ∧ Event.runtimeStop ∉ p ∧ Event.runtimeStop ∉ q
      ∧ Event.waitEnded (!env.aggregateWins) ∈ p
      ∧ Event.releaseRefs ∈ q := by
  refine ⟨actor_fanout_events st.actors
      ++ service_fanout_events env st.services
      ++ wait_events_from env 0 (finish_receivers env st)
      ++ [Event.waitEnded (!env.aggregateWins)],
    [Event.releaseRefs, Event.leakScan (not_dropped_services env st.services)],
    ?_, ?_, ?_, ?_, ?_⟩
  · show actor_fanout_events st.actors
        ++ service_fanout_events env st.services
        ++ wait_events_from env 0 (finish_receivers env st)
        ++ [Event.waitEnded (!env.aggregateWins), Event.runtimeStop,
            Event.releaseRefs,
            Event.leakScan (not_dropped_services env st.services)] = _
    simp
  · simp [runtimeStop_not_in_actor_fanout, runtimeStop_not_in_service_fanout,
      runtimeStop_not_in_wait]
  · simp
  · simp
  · simp

/-- C9: the leak list is determined solely by the names and the outside
strong counts observed at scan time — two runs over the same registry whose
components report arbitrarily different completion outcomes (success, error,
dropped producer) and whose races resolve differently return identical leak
lists. -/
theorem leak_list_outcome_independent (e₁ e₂ : Env) (st : State)
    (hname : e₁.serviceName = e₂.serviceName)
    (hext : e₁.externalStrong = e₂.externalStrong) :
    (graceful_shutdown e₁ st).leaked = (graceful_shutdown e₂ st).leaked := by
  show not_dropped_services e₁ st.services = not_dropped_services e₂ st.services
  simp only [not_dropped_services, hname, hext]

theorem leak_list_outcome_independent_witness :
    (envS.serviceName = envS_dropped.serviceName
      ∧ envS.externalStrong = envS_dropped.externalStrong)
    ∧ (graceful_shutdown envS { services := [0], actors := [] }).leaked
        = (graceful_shutdown envS_dropped { services := [0], actors := [] }).leaked :=
  ⟨⟨rfl, rfl⟩,
    leak_list_outcome_independent envS envS_dropped
      { services := [0], actors := [] } rfl rfl⟩

/-- C10: on a freshly constructed coordinator with no registrations,
`graceful_shutdown` attempts no notification, records no completion-signal
consumer, and returns the empty leak list. -/
theorem graceful_shutdown_empty_registry (env : Env) :
    (graceful_shutdown env State.default).waitSet = []
    ∧ (graceful_shutdown env State.default).leaked = []
    ∧ (∀ n d, Event.trySend n d ∉ (graceful_shutdown env State.default).events)
    ∧ (∀ l, Event.recordReceiver l ∉ (graceful_shutdown env State.default).events) := by
  refine ⟨rfl, rfl, ?_, ?_⟩
  · intro n d
    show _ ∉ actor_fanout_events State.default.actors
        ++ service_fanout_events env State.default.services
        ++ wait_events_from env 0 (finish_receivers env State.default)
        ++ [Event.waitEnded (!env.aggregateWins), Event.runtimeStop,
            Event.releaseRefs,
            Event.leakScan (not_dropped_services env State.default.services)]
    simp [State.default, actor_fanout_events, service_fanout_events,
      finish_receivers, wait_events_from, not_dropped_services]
  · intro l
    show _ ∉ actor_fanout_events State.default.actors
        ++ service_fanout_events env State.default.services
        ++ wait_events_from env 0 (finish_receivers env State.default)
        ++ [Event.waitEnded (!env.aggregateWins), Event.runtimeStop,
            Event.releaseRefs,
            Event.leakScan (not_dropped_services env State.default.services)]
    simp [State.default, actor_fanout_events, service_fanout_events,
      finish_receivers, wait_events_from, not_dropped_services]

end Shutdown
